import Mathlib

/-!
Verification of the Kimera-VIO `Mesher.h` core (mesh construction, plane
segmentation, and the `MesherModule` queue-synchronization protocol).

The development shallowly embeds the code of
`src/include/kimera-vio/mesh/Mesher.h`.  Functions whose bodies appear in
that header (`MesherModule::getInputPacket`, `MesherModule::hasWork`,
`MesherModule::shutdownQueues`, the queue-fill callbacks) are translated
directly.  Types and functions that the header only declares or includes
(`ThreadsafeQueue`, the front-end / back-end payload types, and the private
`Mesher` geometry routines) are modelled from the specification, as noted
in their doc comments.
-/

set_option autoImplicit false

namespace VIO

/-- `Timestamp` is `std::int64_t` in the code; modelled as `Int`.  Only
equality comparisons and the `std::numeric_limits<Timestamp>::max()`
sentinel matter here. -/
abbrev Timestamp := Int

/-- `std::numeric_limits<Timestamp>::max()` for the 64-bit signed
`Timestamp` type: 2 ^ 63 - 1. -/
def timestampMax : Timestamp := 9223372036854775807

/-- `LandmarkId`: stable integer identity of a tracked 3D point. -/
abbrev LandmarkId := Int

/-- A 3D position (`gtsam::Point3` / `cv::Point3f`); coordinates are
modelled as exact rationals. -/
abbrev Point3 := ℚ × ℚ × ℚ

/-- `gtsam::Pose3`; the synchronization code only passes poses through, so
the model keeps an arbitrary concrete representation. -/
abbrev Pose3 := ℚ × ℚ × ℚ

/-- A 2D pixel position (`KeypointCV`). -/
abbrev KeypointCV := ℚ × ℚ

abbrev KeypointsCV := List KeypointCV

/-- Modelled from the spec: a keypoint tracking-status tag
(valid / invalid / newly-initialized); the enum itself is declared in a
header outside `src/`. -/
inductive Kstatus where
  | valid
  | invalid
  | newlyInitialized
  deriving DecidableEq

abbrev Vector3 := Point3

abbrev LandmarkIds := List LandmarkId

/-- `PointsWithIdMap`: mapping `LandmarkId` to 3D position (the back end's
current optimized estimate), modelled as an association list. -/
abbrev PointsWithIdMap := List (LandmarkId × Point3)

/-- Lookup of a landmark id in a `PointsWithIdMap`. -/
def lookupLmk (m : PointsWithIdMap) (l : LandmarkId) : Option Point3 :=
  (m.find? (fun kv => kv.1 == l)).map Prod.snd

/-- Whether a landmark id is present in a `PointsWithIdMap`. -/
def containsLmk (m : PointsWithIdMap) (l : LandmarkId) : Bool :=
  (lookupLmk m l).isSome

/-! ## Mesh3D data model

`Mesh3D` stores vertices (3D position and `LandmarkId`) and triangles.
The container class `Mesh` lives outside `src/`; the model keeps each
polygon with its three vertices inline, which preserves everything the
claims observe (landmark references and 3D positions). -/

/-- A 3D mesh vertex: landmark identity plus 3D position. -/
structure Vertex3D where
  lmkId : LandmarkId
  pos : Point3
  deriving DecidableEq

/-- A `Mesh3D` polygon (a triangle). -/
structure Polygon3D where
  v1 : Vertex3D
  v2 : Vertex3D
  v3 : Vertex3D
  deriving DecidableEq

abbrev Mesh3D := List Polygon3D

/-- Whether a polygon references the given landmark id through any of its
three vertices. -/
def polygonReferencesLmk (l : LandmarkId) (p : Polygon3D) : Bool :=
  (p.v1.lmkId == l) || (p.v2.lmkId == l) || (p.v3.lmkId == l)

/-- Whether all three vertices of a polygon have a landmark id present in
the given points map (i.e. the polygon is inside the time horizon). -/
def polygonInTimeHorizon (m : PointsWithIdMap) (p : Polygon3D) : Bool :=
  containsLmk m p.v1.lmkId && containsLmk m p.v2.lmkId && containsLmk m p.v3.lmkId

/-- Modelled from the spec: `Mesher::updatePolygonMeshToTimeHorizon` (body
not under `src/`; §4.2 step 5): any previously retained polygon whose
`LandmarkId` has left the time horizon is dropped. -/
def updatePolygonMeshToTimeHorizon (m : PointsWithIdMap) (mesh : Mesh3D) : Mesh3D :=
  mesh.filter (polygonInTimeHorizon m)

/-- A 2D-triangulation triangle, identified by the landmark ids its three
vertices resolved to (the pixel coordinates play no role in the lifting
claims). -/
structure Triangle2D where
  l1 : LandmarkId
  l2 : LandmarkId
  l3 : LandmarkId
  deriving DecidableEq

/-- Modelled from the spec: 3D lifting of one 2D triangle (§4.2 step 3):
look up the 3D position of each of its three `LandmarkId`s in the working
points map; if any of the three is unresolved, discard the triangle. -/
def liftTriangle (m : PointsWithIdMap) (t : Triangle2D) : Option Polygon3D :=
  match lookupLmk m t.l1, lookupLmk m t.l2, lookupLmk m t.l3 with
  | some p1, some p2, some p3 => some ⟨⟨t.l1, p1⟩, ⟨t.l2, p2⟩, ⟨t.l3, p3⟩⟩
  | _, _, _ => none

/-- Modelled from the spec: `Mesher::populate3dMeshTimeHorizon` (body not
under `src/`; §4.2 steps 3 and 5): reduce the previous mesh to the current
time horizon and add the newly lifted triangles. -/
def populate3dMeshTimeHorizon (m : PointsWithIdMap) (tris : List Triangle2D)
    (mesh : Mesh3D) : Mesh3D :=
  updatePolygonMeshToTimeHorizon m mesh ++ tris.filterMap (liftTriangle m)

/-! ## Triangle filtering (`Mesher::isBadTriangle`) -/

/-- A lifted 3D triangle as seen by the degeneracy filter: its three 3D
edge lengths and its tangential-to-radial displacement ratio relative to
the current camera pose (the latter is what
`getRatioBetweenTangentialAndRadialDisplacement` computes). -/
structure LiftedTriangle where
  d12 : ℚ
  d23 : ℚ
  d31 : ℚ
  tanRadRatio : ℚ
  deriving DecidableEq

/-- Modelled from the spec: `Mesher::getRatioBetweenSmallestAndLargestSide`
(body not under `src/`): ratio of the shortest to the longest of the three
3D edge lengths. -/
def getRatioBetweenSmallestAndLargestSide (d12 d23 d31 : ℚ) : ℚ :=
  min d12 (min d23 d31) / max d12 (max d23 d31)

/-- Modelled from the spec: `Mesher::isBadTriangle` (body not under
`src/`; §4.2 step 4): a lifted triangle is rejected if its elongation
ratio falls below the configured minimum, or its longest edge exceeds the
configured maximum, or its tangential-to-radial displacement ratio falls
outside tolerance. -/
def isBadTriangle (t : LiftedTriangle)
    (minRatioBetweenLargestAndSmallestSide minElongationRatio maxTriangleSide : ℚ) :
    Bool :=
  (getRatioBetweenSmallestAndLargestSide t.d12 t.d23 t.d31 <
      minRatioBetweenLargestAndSmallestSide) ||
    (max t.d12 (max t.d23 t.d31) > maxTriangleSide) ||
    (t.tanRadRatio < minElongationRatio)

/-- Modelled from the spec: `Mesher::filterOutBadTriangles` (body not
under `src/`): remove from the mesh every triangle `isBadTriangle`
rejects. -/
def filterOutBadTriangles (mesh : List LiftedTriangle)
    (minRatioBetweenLargestAndSmallestSide minElongationRatio maxTriangleSide : ℚ) :
    List LiftedTriangle :=
  mesh.filter (fun t =>
    ! isBadTriangle t minRatioBetweenLargestAndSmallestSide minElongationRatio
        maxTriangleSide)

/-! ## Planes and landmark association -/

/-- Modelled from the spec: a tracked `Plane` (type declared outside
`src/`; §3): id, unit normal, signed distance, and the accumulated set of
`LandmarkId`s belonging to it (set semantics). -/
structure Plane where
  id : Nat
  normal : Point3
  distance : ℚ
  lmkIds : Finset LandmarkId

def dot3 (a b : Point3) : ℚ :=
  a.1 * b.1 + a.2.1 * b.2.1 + a.2.2 * b.2.2

def sub3 (a b : Point3) : Point3 :=
  (a.1 - b.1, a.2.1 - b.2.1, a.2.2 - b.2.2)

def cross3 (a b : Point3) : Point3 :=
  (a.2.1 * b.2.2 - a.2.2 * b.2.1,
   a.2.2 * b.1 - a.1 * b.2.2,
   a.1 * b.2.1 - a.2.1 * b.1)

def normSq3 (a : Point3) : ℚ := dot3 a a

/-- Modelled from the spec: `Mesher::calculateNormal` (body not under
`src/`; §4.3 step 1): compute the polygon normal from two edge vectors,
signalling failure on near-collinear vertices (here: an exactly zero cross
product; normalization is omitted to stay exact). -/
def calculateNormal (p : Polygon3D) : Option Point3 :=
  let n := cross3 (sub3 p.v2.pos p.v1.pos) (sub3 p.v3.pos p.v1.pos)
  if n = ((0 : ℚ), (0 : ℚ), (0 : ℚ)) then none else some n

/-- Modelled from the spec: `Mesher::isNormalAroundAxis` (body not under
`src/`): angular-closeness tolerance test between an axis and a normal,
stated on squared magnitudes to remain exact. -/
def isNormalAroundAxis (axis n : Point3) (tolerance : ℚ) : Bool :=
  normSq3 (cross3 axis n) ≤ tolerance * tolerance * (normSq3 axis * normSq3 n)

/-- Modelled from the spec: `Mesher::isPointAtDistanceFromPlane` (body not
under `src/`): the point is closer than tolerance to the plane. -/
def isPointAtDistanceFromPlane (pt : Point3) (planeDistance : ℚ)
    (planeNormal : Point3) (distanceTolerance : ℚ) : Bool :=
  |dot3 planeNormal pt - planeDistance| ≤ distanceTolerance

/-- Modelled from the spec: `Mesher::isPolygonAtDistanceFromPlane` (body
not under `src/`): all points of the polygon are closer than tolerance to
the plane. -/
def isPolygonAtDistanceFromPlane (p : Polygon3D) (planeDistance : ℚ)
    (planeNormal : Point3) (distanceTolerance : ℚ) : Bool :=
  isPointAtDistanceFromPlane p.v1.pos planeDistance planeNormal distanceTolerance &&
    isPointAtDistanceFromPlane p.v2.pos planeDistance planeNormal distanceTolerance &&
    isPointAtDistanceFromPlane p.v3.pos planeDistance planeNormal distanceTolerance

/-- Whether a mesh polygon lies within both the normal-direction tolerance
and the perpendicular-distance tolerance of a plane given by its geometry
(unit normal and signed distance) — §4.3 step 5. -/
def polygonMatchesGeometry (planeNormal : Point3) (planeDistance : ℚ)
    (p : Polygon3D) (normalTolerance distanceTolerance : ℚ) : Bool :=
  match calculateNormal p with
  | none => false
  | some n =>
    isNormalAroundAxis planeNormal n normalTolerance &&
      isPolygonAtDistanceFromPlane p planeDistance planeNormal distanceTolerance

/-- Whether a mesh polygon matches a tracked plane: the test reads only
the plane's geometry, never its accumulated landmark set. -/
def polygonMatchesPlane (pl : Plane) (p : Polygon3D)
    (normalTolerance distanceTolerance : ℚ) : Bool :=
  polygonMatchesGeometry pl.normal pl.distance p normalTolerance distanceTolerance

/-- Modelled from the spec: `Mesher::appendLmkIdsOfPolygon` (body not
under `src/`): append the polygon's three `LandmarkId`s to a landmark set
(set semantics), keeping only ids present in the current points map. -/
def appendLmkIdsOfPolygon (p : Polygon3D) (s : Finset LandmarkId)
    (m : PointsWithIdMap) : Finset LandmarkId :=
  let addV := fun (v : Vertex3D) (acc : Finset LandmarkId) =>
    if containsLmk m v.lmkId then insert v.lmkId acc else acc
  addV p.v3 (addV p.v2 (addV p.v1 s))

/-- Modelled from the spec: the per-plane body of
`Mesher::updatePlanesLmkIdsFromMesh` (body not under `src/`): loop over
the mesh and append to the plane's landmark set the ids of every polygon
close to the plane; the plane's geometry is not modified. -/
def updatePlaneLmkIdsFromMesh (mesh : Mesh3D)
    (normalTolerance distanceTolerance : ℚ) (m : PointsWithIdMap)
    (pl : Plane) : Plane :=
  ⟨pl.id, pl.normal, pl.distance,
    mesh.foldl
      (fun s p =>
        if polygonMatchesPlane pl p normalTolerance distanceTolerance then
          appendLmkIdsOfPolygon p s m
        else s)
      pl.lmkIds⟩

/-- Modelled from the spec: `Mesher::updatePlanesLmkIdsFromMesh` (body not
under `src/`): update every tracked plane's landmark set from the mesh. -/
def updatePlanesLmkIdsFromMesh (planes : List Plane)
    (normalTolerance distanceTolerance : ℚ) (m : PointsWithIdMap)
    (mesh : Mesh3D) : List Plane :=
  planes.map (updatePlaneLmkIdsFromMesh mesh normalTolerance distanceTolerance m)

/-! ## ThreadsafeQueue and pipeline payloads -/

/-- Modelled from the spec: `ThreadsafeQueue` (header not under `src/`;
§5): FIFO item list plus an atomic shutdown flag. -/
structure ThreadsafeQueue (α : Type) where
  items : List α
  shutdown : Bool

/-- `ThreadsafeQueue::empty`. -/
def ThreadsafeQueue.empty {α : Type} (q : ThreadsafeQueue α) : Bool :=
  q.items.isEmpty

/-- Modelled from the spec: non-blocking `ThreadsafeQueue::pop` (§4.1,
§5): fails (returning the queue unchanged) when the queue is shut down or
empty, otherwise pops the front item. -/
def ThreadsafeQueue.pop {α : Type} (q : ThreadsafeQueue α) :
    Option α × ThreadsafeQueue α :=
  if q.shutdown then (none, q)
  else
    match q.items with
    | [] => (none, q)
    | x :: xs => (some x, ⟨xs, q.shutdown⟩)

/-- Outcome of a blocking pop: an item, a failure because the queue was
shut down, or an indefinite block (queue empty, no shutdown, and — in the
sequential model — no producer ever pushing). -/
inductive BlockingPopResult (α : Type) where
  | got (a : α) (rest : ThreadsafeQueue α)
  | shutdownRes
  | blockedRes

/-- Modelled from the spec: `ThreadsafeQueue::popBlocking` (§5): returns a
failure indicator once the queue is shut down, blocks while the queue is
empty, and otherwise pops the front item. -/
def ThreadsafeQueue.popBlocking {α : Type} (q : ThreadsafeQueue α) :
    BlockingPopResult α :=
  if q.shutdown then .shutdownRes
  else
    match q.items with
    | [] => .blockedRes
    | x :: xs => .got x ⟨xs, q.shutdown⟩

/-- The left `Frame` of a stereo keyframe; only the fields
`MesherModule::getInputPacket` reads are modelled. -/
structure Frame where
  keypoints : KeypointsCV
  landmarks : LandmarkIds
  deriving DecidableEq

/-- A `StereoFrame`; only the fields `MesherModule::getInputPacket` reads
are modelled. -/
structure StereoFrame where
  timestamp : Timestamp
  leftFrame : Frame
  rightKeypointsStatus : List Kstatus
  keypoints3d : List Vector3
  deriving DecidableEq

/-- `StereoFrame::getTimestamp`. -/
def StereoFrame.getTimestamp (sf : StereoFrame) : Timestamp :=
  sf.timestamp

/-- `StereoFrame::getLeftFrame`. -/
def StereoFrame.getLeftFrame (sf : StereoFrame) : Frame :=
  sf.leftFrame

/-- `StereoFrontEndOutputPayload` (type declared outside `src/`): the
front-end packet, carrying the last stereo keyframe. -/
structure StereoFrontEndOutputPayload where
  stereoFrameLkf : StereoFrame
  deriving DecidableEq

/-- `W_State_Blkf_`: the back end's timestamped navigation state; only the
timestamp and pose are read by `MesherModule::getInputPacket`. -/
structure VioNavStateTimestamped where
  timestamp : Timestamp
  pose : Pose3
  deriving DecidableEq

/-- `VioBackEndOutputPayload` (type declared outside `src/`): the back-end
packet.  Modelled from the spec: §6 lists the back end's optimized landmark
map (`LandmarkId` to 3D position, scoped to the time horizon) among the
per-cycle inputs, so the model carries it in the payload alongside the
navigation state actually read by the code. -/
structure VioBackEndOutputPayload where
  wStateBlkf : VioNavStateTimestamped
  pointsWithIdVio : PointsWithIdMap
  deriving DecidableEq

/-- `MesherFrontendInput = StereoFrontEndOutputPayload::Ptr`: a shared
pointer, i.e. possibly null. -/
abbrev MesherFrontendInput := Option StereoFrontEndOutputPayload

/-- `MesherBackendInput = VioBackEndOutputPayload::Ptr`: a shared pointer,
i.e. possibly null. -/
abbrev MesherBackendInput := Option VioBackEndOutputPayload

abbrev FrontQueue := ThreadsafeQueue MesherFrontendInput

abbrev BackQueue := ThreadsafeQueue MesherBackendInput

/-- `MesherInput` (from `src/include/kimera-vio/mesh/Mesher.h` lines
55-89): the synchronized input packet. -/
structure MesherInput where
  timestamp : Timestamp
  pointsWithIdVio : PointsWithIdMap
  keypoints : KeypointsCV
  keypointsStatus : List Kstatus
  keypoints3d : List Vector3
  landmarks : LandmarkIds
  wPoseB : Pose3
  deriving DecidableEq

/-- The Mesher's persistent state across cycles: the 3D mesh and the
tracked planes.  `MesherModule::getInputPacket` never reads or writes it;
the model carries it so that this fact is a provable statement. -/
structure MesherState where
  mesh3d : Mesh3D
  planes : List Plane

/-- The `MesherModule`'s mutable state: the two input queues and the owned
mesher. -/
structure MesherModuleState where
  frontendPayloadQueue : FrontQueue
  backendPayloadQueue : BackQueue
  mesher : MesherState

/-- The distinct log statements `MesherModule::getInputPacket` can emit. -/
inductive LogMsg where
  | backendQueueDownWarning
  | backendQueueEmptyOrDownVlog
  | frontendQueueEmptyOrShutdownError
  | missingFrontendPayloadWarning
  deriving DecidableEq

/-- Outcome of the front-end matching loop in
`MesherModule::getInputPacket`: either the pop failed (queue empty or shut
down; the function returns `nullptr`), or the loop guard became false and
the loop exited with the current value of the `frontend_payload`
variable. -/
inductive LoopOutcome where
  | fail (fq : FrontQueue) (logs : List LogMsg)
  | exit (cur : MesherFrontendInput) (fq : FrontQueue) (logs : List LogMsg)

/-- Prepend a log message to a loop outcome. -/
def LoopOutcome.withLog (msg : LogMsg) : LoopOutcome → LoopOutcome
  | .fail fq logs => .fail fq (msg :: logs)
  | .exit cur fq logs => .exit cur fq (msg :: logs)

/-- The `while (timestamp != payload_timestamp)` loop of
`MesherModule::getInputPacket` (lines 584-597): pop the front-end queue
non-blocking; on pop failure log an error and fail; a non-null popped
payload updates `payload_timestamp`, a null one logs a warning and leaves
it unchanged. -/
def syncLoop (t payloadTs : Timestamp) (cur : MesherFrontendInput)
    (sd : Bool) (items : List MesherFrontendInput) : LoopOutcome :=
  if t = payloadTs then .exit cur ⟨items, sd⟩ []
  else if sd then .fail ⟨items, sd⟩ [.frontendQueueEmptyOrShutdownError]
  else
    match items with
    | [] => .fail ⟨[], false⟩ [.frontendQueueEmptyOrShutdownError]
    | none :: rest =>
      (syncLoop t payloadTs cur false rest).withLog .missingFrontendPayloadWarning
    | some p :: rest => syncLoop t p.stereoFrameLkf.getTimestamp (some p) false rest

/-- The overall outcome of one `getInputPacket` call: a returned packet
(or `nullptr`), an indefinite block inside `popBlocking`, a fatal
`CHECK(backend_payload)` failure, or the dereference of a null
`frontend_payload` pointer after the loop. -/
inductive GetInputOutcome where
  | ret (packet : Option MesherInput) (st : MesherModuleState) (logs : List LogMsg)
  | blockedForever (st : MesherModuleState) (logs : List LogMsg)
  | checkFailed (st : MesherModuleState) (logs : List LogMsg)
  | nullDeref (st : MesherModuleState) (logs : List LogMsg)

/-- Prepend a log message to a `getInputPacket` outcome. -/
def GetInputOutcome.withLog (msg : LogMsg) : GetInputOutcome → GetInputOutcome
  | .ret p st logs => .ret p st (msg :: logs)
  | .blockedForever st logs => .blockedForever st (msg :: logs)
  | .checkFailed st logs => .checkFailed st (msg :: logs)
  | .nullDeref st logs => .nullDeref st (msg :: logs)

/-- The `MesherInput` constructed at the end of
`MesherModule::getInputPacket` (lines 602-611): note the
`points_with_id_vio_` field receives a default-constructed, empty
`PointsWithIdMap()` (the code carries a TODO to fetch the map from the
back end instead). -/
def mkSyncedInput (t : Timestamp) (fp : StereoFrontEndOutputPayload)
    (b : VioBackEndOutputPayload) : MesherInput :=
  ⟨t, [],
    fp.stereoFrameLkf.getLeftFrame.keypoints,
    fp.stereoFrameLkf.rightKeypointsStatus,
    fp.stereoFrameLkf.keypoints3d,
    fp.stereoFrameLkf.getLeftFrame.landmarks,
    b.wStateBlkf.pose⟩

/-- Assemble the final `getInputPacket` outcome from the loop outcome:
loop failure returns `nullptr`; loop exit dereferences `frontend_payload`
(a null pointer if the loop never ran) and builds the synchronized
packet. -/
def assembleOutcome (t : Timestamp) (b : VioBackEndOutputPayload)
    (bq : BackQueue) (m : MesherState) : LoopOutcome → GetInputOutcome
  | .fail fq logs => .ret none ⟨fq, bq, m⟩ logs
  | .exit none fq logs => .nullDeref ⟨fq, bq, m⟩ logs
  | .exit (some fp) fq logs => .ret (some (mkSyncedInput t fp b)) ⟨fq, bq, m⟩ logs

/-- The part of `MesherModule::getInputPacket` after the back-end pop:
`CHECK(backend_payload)`, timestamp extraction, the matching loop seeded
with the `std::numeric_limits<Timestamp>::max()` sentinel, and packet
construction. -/
def afterBackendPop (b? : MesherBackendInput) (fq : FrontQueue)
    (bq : BackQueue) (m : MesherState) : GetInputOutcome :=
  match b? with
  | none => .checkFailed ⟨fq, bq, m⟩ []
  | some b =>
    assembleOutcome b.wStateBlkf.timestamp b bq m
      (syncLoop b.wStateBlkf.timestamp timestampMax none fq.shutdown fq.items)

/-- `MesherModule::getInputPacket` (lines 561-612): pop the back-end queue
(blocking in parallel mode, non-blocking in sequential mode), log and
return `nullptr` on failure, then synchronize against the front-end
queue. -/
def getInputPacket (parallelRun : Bool) (st : MesherModuleState) :
    GetInputOutcome :=
  if parallelRun then
    match st.backendPayloadQueue.popBlocking with
    | .shutdownRes => .ret none st [.backendQueueDownWarning]
    | .blockedRes => .blockedForever st []
    | .got b bq => afterBackendPop b st.frontendPayloadQueue bq st.mesher
  else
    match st.backendPayloadQueue.pop with
    | (none, bq) =>
      .ret none ⟨st.frontendPayloadQueue, bq, st.mesher⟩
        [.backendQueueEmptyOrDownVlog]
    | (some b, bq) => afterBackendPop b st.frontendPayloadQueue bq st.mesher

/-- `MesherModule::hasWork` (lines 627-630), verbatim:
`return backend_payload_queue_.empty();`. -/
def hasWork (st : MesherModuleState) : Bool :=
  st.backendPayloadQueue.empty

/-! ## Auxiliary definitions for the proofs -/

/-- The landmark-id contribution of a single polygon (the ids
`appendLmkIdsOfPolygon` would add to an empty set). -/
def polyLmkIdSet (p : Polygon3D) (m : PointsWithIdMap) : Finset LandmarkId :=
  appendLmkIdsOfPolygon p ∅ m

/-- The landmark ids one pass of `updatePlaneLmkIdsFromMesh` collects from
the mesh for a plane with the given geometry (independently of the plane's
current landmark set). -/
def meshLmkContribution (planeNormal : Point3) (planeDistance : ℚ)
    (mesh : Mesh3D) (normalTolerance distanceTolerance : ℚ)
    (m : PointsWithIdMap) : Finset LandmarkId :=
  mesh.foldl
    (fun acc p =>
      acc ∪
        (if polygonMatchesGeometry planeNormal planeDistance p normalTolerance
              distanceTolerance then
          polyLmkIdSet p m
        else ∅))
    ∅

/-! ## Sample data for witnesses and counterexamples -/

/-- A front-end payload carrying only a timestamp. -/
def fpAt (ts : Timestamp) : StereoFrontEndOutputPayload :=
  ⟨⟨ts, ⟨[], []⟩, [], []⟩⟩

/-- A back-end payload carrying only a timestamp (empty optimized map,
origin pose). -/
def bpAt (ts : Timestamp) : VioBackEndOutputPayload :=
  ⟨⟨ts, (0, 0, 0)⟩, []⟩

/-- An empty mesher state. -/
def mState0 : MesherState := ⟨[], []⟩

/-- A front-end payload at timestamp 5 with one tracked keypoint. -/
def fpC2 : StereoFrontEndOutputPayload :=
  ⟨⟨5, ⟨[(10, 20)], [1]⟩, [.valid], [(0, 0, 1)]⟩⟩

/-- A back-end payload at timestamp 5 whose optimized landmark map is
non-empty. -/
def bpC2 : VioBackEndOutputPayload :=
  ⟨⟨5, (1, 2, 3)⟩, [(1, (4, 5, 6))]⟩

/-- A three-landmark points map (the time horizon of one cycle). -/
def hzMap : PointsWithIdMap :=
  [(1, (0, 0, 0)), (2, (1, 0, 0)), (3, (0, 1, 0))]

/-- A stale polygon referencing landmark 99, absent from `hzMap`. -/
def stalePoly : Polygon3D :=
  ⟨⟨99, (0, 0, 0)⟩, ⟨1, (0, 0, 0)⟩, ⟨2, (1, 0, 0)⟩⟩

/-- The polygon obtained by lifting the 2D triangle over landmarks 1, 2, 3
through `hzMap`. -/
def freshPoly : Polygon3D :=
  ⟨⟨1, (0, 0, 0)⟩, ⟨2, (1, 0, 0)⟩, ⟨3, (0, 1, 0)⟩⟩

/-- A well-proportioned lifted triangle (edge lengths 3, 4, 5). -/
def tGood : LiftedTriangle := ⟨3, 4, 5, 1⟩

/-- A lifted triangle spanning a long edge (length 100). -/
def tBad : LiftedTriangle := ⟨1, 1, 100, 1⟩

/-- A horizontal plane through the origin with no landmarks yet. -/
def plane0 : Plane := ⟨0, (0, 0, 1), 0, ∅⟩

/-! ## Lemmas on the synchronization loop -/

lemma syncLoop_exit_now (t : Timestamp) (cur : MesherFrontendInput) (sd : Bool)
    (items : List MesherFrontendInput) :
    syncLoop t t cur sd items = .exit cur ⟨items, sd⟩ [] := by
  rw [syncLoop.eq_def]
  simp

lemma syncLoop_shutdown (t payloadTs : Timestamp) (cur : MesherFrontendInput)
    (items : List MesherFrontendInput) (h : t ≠ payloadTs) :
    syncLoop t payloadTs cur true items =
      .fail ⟨items, true⟩ [.frontendQueueEmptyOrShutdownError] := by
  rw [syncLoop.eq_def]
  simp [h]

lemma syncLoop_nil (t payloadTs : Timestamp) (cur : MesherFrontendInput)
    (h : t ≠ payloadTs) :
    syncLoop t payloadTs cur false [] =
      .fail ⟨[], false⟩ [.frontendQueueEmptyOrShutdownError] := by
  rw [syncLoop.eq_def]
  simp [h]

lemma syncLoop_cons_none (t payloadTs : Timestamp) (cur : MesherFrontendInput)
    (rest : List MesherFrontendInput) (h : t ≠ payloadTs) :
    syncLoop t payloadTs cur false (none :: rest) =
      (syncLoop t payloadTs cur false rest).withLog .missingFrontendPayloadWarning := by
  rw [syncLoop.eq_def]
  simp [h]

lemma syncLoop_cons_some (t payloadTs : Timestamp) (cur : MesherFrontendInput)
    (p : StereoFrontEndOutputPayload) (rest : List MesherFrontendInput)
    (h : t ≠ payloadTs) :
    syncLoop t payloadTs cur false (some p :: rest) =
      syncLoop t p.stereoFrameLkf.getTimestamp (some p) false rest := by
  rw [syncLoop.eq_def]
  simp [h]

/-- Running the loop over a prefix of non-null, non-matching entries
followed by a matching entry exits with the matching payload, leaving the
suffix in the queue and emitting no logs. -/
lemma syncLoop_reaches_match (t : Timestamp) (fp : StereoFrontEndOutputPayload)
    (post : List MesherFrontendInput) (hfp : fp.stereoFrameLkf.getTimestamp = t) :
    ∀ (pre : List MesherFrontendInput) (payloadTs : Timestamp)
      (cur : MesherFrontendInput),
      payloadTs ≠ t →
      (∀ x ∈ pre, ∃ p, x = some p ∧ p.stereoFrameLkf.getTimestamp ≠ t) →
      syncLoop t payloadTs cur false (pre ++ some fp :: post) =
        .exit (some fp) ⟨post, false⟩ [] := by
  intro pre
  induction pre with
  | nil =>
    intro payloadTs cur hne _
    rw [List.nil_append, syncLoop_cons_some t payloadTs cur fp post (fun h => hne h.symm),
      hfp, syncLoop_exit_now]
  | cons x rest ih =>
    intro payloadTs cur hne hpre
    obtain ⟨p, rfl, hp⟩ := hpre x (List.mem_cons_self x rest)
    rw [List.cons_append,
      syncLoop_cons_some t payloadTs cur p (rest ++ some fp :: post) (fun h => hne h.symm)]
    exact ih p.stereoFrameLkf.getTimestamp (some p) hp
      (fun y hy => hpre y (List.mem_cons_of_mem _ hy))

/-- Running the loop over a queue of non-null entries none of which
matches exhausts the queue and fails with the error log. -/
lemma syncLoop_no_match (t : Timestamp) :
    ∀ (items : List MesherFrontendInput) (payloadTs : Timestamp)
      (cur : MesherFrontendInput),
      payloadTs ≠ t →
      (∀ x ∈ items, ∃ p, x = some p ∧ p.stereoFrameLkf.getTimestamp ≠ t) →
      syncLoop t payloadTs cur false items =
        .fail ⟨[], false⟩ [.frontendQueueEmptyOrShutdownError] := by
  intro items
  induction items with
  | nil =>
    intro payloadTs cur hne _
    exact syncLoop_nil t payloadTs cur (fun h => hne h.symm)
  | cons x rest ih =>
    intro payloadTs cur hne hitems
    obtain ⟨p, rfl, hp⟩ := hitems x (List.mem_cons_self x rest)
    rw [syncLoop_cons_some t payloadTs cur p rest (fun h => hne h.symm)]
    exact ih p.stereoFrameLkf.getTimestamp (some p) hp
      (fun y hy => hitems y (List.mem_cons_of_mem _ hy))

/-- If the loop was entered with a sentinel different from the target
timestamp, then on exit the `frontend_payload` variable holds a non-null
payload whose timestamp is the target. -/
lemma syncLoop_exit_some (t : Timestamp) :
    ∀ (items : List MesherFrontendInput) (payloadTs : Timestamp)
      (cur cur2 : MesherFrontendInput) (sd : Bool) (fq2 : FrontQueue)
      (logs : List LogMsg),
      payloadTs ≠ t →
      syncLoop t payloadTs cur sd items = .exit cur2 fq2 logs →
      ∃ p, cur2 = some p ∧ p.stereoFrameLkf.getTimestamp = t := by
  intro items
  induction items with
  | nil =>
    intro payloadTs cur cur2 sd fq2 logs hne h
    cases sd with
    | true => rw [syncLoop_shutdown t payloadTs cur [] (fun e => hne e.symm)] at h; exact absurd h (by simp)
    | false => rw [syncLoop_nil t payloadTs cur (fun e => hne e.symm)] at h; exact absurd h (by simp)
  | cons x rest ih =>
    intro payloadTs cur cur2 sd fq2 logs hne h
    cases sd with
    | true => rw [syncLoop_shutdown t payloadTs cur (x :: rest) (fun e => hne e.symm)] at h; exact absurd h (by simp)
    | false =>
      cases x with
      | none =>
        rw [syncLoop_cons_none t payloadTs cur rest (fun e => hne e.symm)] at h
        rcases hr : syncLoop t payloadTs cur false rest with ⟨fq3, logs3⟩ | ⟨cur3, fq3, logs3⟩
        · rw [hr] at h; exact absurd h (by simp [LoopOutcome.withLog])
        · rw [hr] at h
          simp only [LoopOutcome.withLog] at h
          injection h with h1 h2 h3
          exact h1 ▸ ih payloadTs cur cur3 false fq3 logs3 hne hr
      | some p =>
        rw [syncLoop_cons_some t payloadTs cur p rest (fun e => hne e.symm)] at h
        by_cases hpt : p.stereoFrameLkf.getTimestamp = t
        · rw [hpt, syncLoop_exit_now] at h
          injection h with h1 h2 h3
          exact ⟨p, h1.symm, hpt⟩
        · exact ih p.stereoFrameLkf.getTimestamp (some p) cur2 false fq2 logs hpt h

/-- `assembleOutcome` commutes with log prepending. -/
lemma assembleOutcome_withLog (t : Timestamp) (b : VioBackEndOutputPayload)
    (bq : BackQueue) (m : MesherState) (msg : LogMsg) (r : LoopOutcome) :
    assembleOutcome t b bq m (r.withLog msg) =
      (assembleOutcome t b bq m r).withLog msg := by
  rcases r with ⟨fq, logs⟩ | ⟨cur, fq, logs⟩
  · rfl
  · cases cur <;> rfl

/-- Reduction of `getInputPacket` when the back-end queue is live and
non-empty: both run modes pop the first payload and proceed
identically. -/
lemma getInputPacket_got (parallelRun : Bool) (fq : FrontQueue)
    (b : MesherBackendInput) (bs : List MesherBackendInput) (m : MesherState) :
    getInputPacket parallelRun ⟨fq, ⟨b :: bs, false⟩, m⟩ =
      afterBackendPop b fq ⟨bs, false⟩ m := by
  cases parallelRun <;>
    simp [getInputPacket, ThreadsafeQueue.pop, ThreadsafeQueue.popBlocking]

/-! ## Claim theorems -/

/-- Claim C1: the claim states that `hasWork` returns true iff the
back-end payload queue is non-empty.  The code returns
`backend_payload_queue_.empty()` instead, so with one payload queued it
returns `false`, and with an empty queue it returns `true` — the exact
inversion of the claim (and of the function's own name and doc
comment). -/
theorem hasWork_inverted_on_fill_state :
    hasWork ⟨⟨[], false⟩, ⟨[some (bpAt 0)], false⟩, mState0⟩ = false ∧
      hasWork ⟨⟨[], false⟩, ⟨[], false⟩, mState0⟩ = true :=
  ⟨rfl, rfl⟩

/-- Claim C2: the synchronized packet returned for a matched pair at
timestamp 5 carries the timestamp, the back end's pose, and the front
end's keypoints, statuses, 3D estimates and landmark ids — but its
`points_with_id_vio_` field is the default-constructed empty map, even
though the back end's optimized landmark map is non-empty. -/
theorem synced_packet_has_empty_points_map :
    getInputPacket false ⟨⟨[some fpC2], false⟩, ⟨[some bpC2], false⟩, mState0⟩ =
        .ret (some ⟨5, [], [(10, 20)], [.valid], [(0, 0, 1)], [1], (1, 2, 3)⟩)
          ⟨⟨[], false⟩, ⟨[], false⟩, mState0⟩ [] ∧
      bpC2.pointsWithIdVio = [(1, (4, 5, 6))] :=
  ⟨rfl, rfl⟩

/-- Claim C3 counterexample: for a back-end packet whose timestamp equals
the maximum representable `Timestamp` value and a front-end queue whose
single entry matches it, `getInputPacket` does not pair with the match:
the sentinel makes the loop guard false, the loop is skipped, the
matching entry is left in the queue, and a null `frontend_payload` is
dereferenced. -/
theorem sync_at_max_timestamp_does_not_pair :
    getInputPacket false
        ⟨⟨[some (fpAt timestampMax)], false⟩,
          ⟨[some (bpAt timestampMax)], false⟩, mState0⟩ =
      .nullDeref ⟨⟨[some (fpAt timestampMax)], false⟩, ⟨[], false⟩, mState0⟩ [] :=
  rfl

/-- Claim C3 (amended): for every back-end packet with timestamp `t`
strictly below the sentinel `std::numeric_limits<Timestamp>::max()` and
every front-end queue consisting of non-null entries in which some entry
has timestamp `t`, `getInputPacket` pops and permanently discards every
entry preceding the first match, pairs with the first matching entry, and
leaves all later entries in the queue. -/
theorem sync_discards_prefix_pairs_first_match (parallelRun : Bool)
    (t : Timestamp) (pre post : List MesherFrontendInput)
    (fp : StereoFrontEndOutputPayload) (b : VioBackEndOutputPayload)
    (bs : List MesherBackendInput) (m : MesherState)
    (hT : t ≠ timestampMax) (hb : b.wStateBlkf.timestamp = t)
    (hfp : fp.stereoFrameLkf.getTimestamp = t)
    (hpre : ∀ x ∈ pre, ∃ p, x = some p ∧ p.stereoFrameLkf.getTimestamp ≠ t) :
    getInputPacket parallelRun
        ⟨⟨pre ++ some fp :: post, false⟩, ⟨some b :: bs, false⟩, m⟩ =
      .ret (some (mkSyncedInput t fp b)) ⟨⟨post, false⟩, ⟨bs, false⟩, m⟩ [] := by
  rw [getInputPacket_got]
  simp only [afterBackendPop, hb]
  rw [syncLoop_reaches_match t fp post hfp pre timestampMax none
    (fun e => hT e.symm) hpre]
  rfl

/-- Witness for C3 (amended): the spec's own example — back-end timestamp
5, front-end queue [3, 4, 5, 6] — consumes 3 and 4, pairs with 5, and
leaves 6 in the queue. -/
theorem sync_discards_prefix_pairs_first_match_witness :
    getInputPacket false
        ⟨⟨[some (fpAt 3), some (fpAt 4), some (fpAt 5), some (fpAt 6)], false⟩,
          ⟨[some (bpAt 5)], false⟩, mState0⟩ =
      .ret (some (mkSyncedInput 5 (fpAt 5) (bpAt 5)))
        ⟨⟨[some (fpAt 6)], false⟩, ⟨[], false⟩, mState0⟩ [] :=
  sync_discards_prefix_pairs_first_match false 5 [some (fpAt 3), some (fpAt 4)]
    [some (fpAt 6)] (fpAt 5) (bpAt 5) [] mState0 (by decide) rfl rfl
    (by
      intro x hx
      simp only [List.mem_cons, List.not_mem_nil, or_false] at hx
      rcases hx with rfl | rfl
      · exact ⟨fpAt 3, rfl, by decide⟩
      · exact ⟨fpAt 4, rfl, by decide⟩)

/-- Claim C4: when no front-end entry matches the back-end timestamp `t`
(below the sentinel, so the search actually runs), the tick fails with the
error log and no output packet, the front-end queue is left empty, and the
mesher's persisted mesh/plane state `m` is untouched; likewise when the
front-end queue has been shut down (second conjunct), where the queue
contents are also left untouched. -/
theorem sync_failure_no_output (parallelRun : Bool) (t : Timestamp)
    (items : List MesherFrontendInput) (b : VioBackEndOutputPayload)
    (bs : List MesherBackendInput) (m : MesherState)
    (hT : t ≠ timestampMax) (hb : b.wStateBlkf.timestamp = t)
    (hitems : ∀ x ∈ items, ∃ p, x = some p ∧ p.stereoFrameLkf.getTimestamp ≠ t) :
    (getInputPacket parallelRun ⟨⟨items, false⟩, ⟨some b :: bs, false⟩, m⟩ =
      .ret none ⟨⟨[], false⟩, ⟨bs, false⟩, m⟩
        [.frontendQueueEmptyOrShutdownError]) ∧
    ∀ items2 : List MesherFrontendInput,
      getInputPacket parallelRun ⟨⟨items2, true⟩, ⟨some b :: bs, false⟩, m⟩ =
        .ret none ⟨⟨items2, true⟩, ⟨bs, false⟩, m⟩
          [.frontendQueueEmptyOrShutdownError] := by
  constructor
  · rw [getInputPacket_got]
    simp only [afterBackendPop, hb]
    rw [syncLoop_no_match t items timestampMax none (fun e => hT e.symm) hitems]
    rfl
  · intro items2
    rw [getInputPacket_got]
    simp only [afterBackendPop, hb]
    rw [syncLoop_shutdown t timestampMax none items2 hT]
    rfl

/-- Witness for C4: the spec's own failure example — back-end timestamp 5,
front-end queue [3, 4] — fails with the error log, produces no output, and
leaves the queue empty. -/
theorem sync_failure_no_output_witness :
    getInputPacket false
        ⟨⟨[some (fpAt 3), some (fpAt 4)], false⟩, ⟨[some (bpAt 5)], false⟩,
          mState0⟩ =
      .ret none ⟨⟨[], false⟩, ⟨[], false⟩, mState0⟩
        [.frontendQueueEmptyOrShutdownError] :=
  (sync_failure_no_output false 5 [some (fpAt 3), some (fpAt 4)] (bpAt 5) []
      mState0 (by decide) rfl
      (by
        intro x hx
        simp only [List.mem_cons, List.not_mem_nil, or_false] at hx
        rcases hx with rfl | rfl
        · exact ⟨fpAt 3, rfl, by decide⟩
        · exact ⟨fpAt 4, rfl, by decide⟩)).1

/-- Claim C5 counterexample: in sequential (step) mode the two distinct
back-end pop failure conditions — queue empty versus queue shut down —
produce the identical log message, so they are not logged differently. -/
theorem step_mode_empty_vs_shutdown_same_log :
    getInputPacket false ⟨⟨[], false⟩, ⟨[], false⟩, mState0⟩ =
        .ret none ⟨⟨[], false⟩, ⟨[], false⟩, mState0⟩
          [.backendQueueEmptyOrDownVlog] ∧
      getInputPacket false ⟨⟨[], false⟩, ⟨[], true⟩, mState0⟩ =
        .ret none ⟨⟨[], false⟩, ⟨[], true⟩, mState0⟩
          [.backendQueueEmptyOrDownVlog] :=
  ⟨rfl, rfl⟩

/-- Claim C5 (amended): `getInputPacket` pops the back-end queue blocking
in parallel mode (an empty live queue blocks rather than failing) and
non-blocking in step mode (an empty queue fails immediately); every pop
failure yields no output and leaves the module state unchanged; and the
failure logs are distinguished by run mode — a warning that the queue is
down in parallel mode, a verbose empty-or-down message in step mode — not
by failure condition. -/
theorem backend_pop_mode_behavior (fq : FrontQueue) (m : MesherState) :
    (getInputPacket true ⟨fq, ⟨[], false⟩, m⟩ =
        .blockedForever ⟨fq, ⟨[], false⟩, m⟩ []) ∧
    (∀ bitems : List MesherBackendInput,
      getInputPacket true ⟨fq, ⟨bitems, true⟩, m⟩ =
        .ret none ⟨fq, ⟨bitems, true⟩, m⟩ [.backendQueueDownWarning]) ∧
    (getInputPacket false ⟨fq, ⟨[], false⟩, m⟩ =
        .ret none ⟨fq, ⟨[], false⟩, m⟩ [.backendQueueEmptyOrDownVlog]) ∧
    (∀ bitems : List MesherBackendInput,
      getInputPacket false ⟨fq, ⟨bitems, true⟩, m⟩ =
        .ret none ⟨fq, ⟨bitems, true⟩, m⟩ [.backendQueueEmptyOrDownVlog]) :=
  ⟨rfl, fun _ => rfl, rfl, fun _ => rfl⟩

/-- Witness for C5 (amended): concrete instantiation — in parallel mode an
empty live back-end queue blocks rather than failing. -/
theorem backend_pop_mode_behavior_witness :
    getInputPacket true ⟨⟨[], false⟩, ⟨[], false⟩, mState0⟩ =
      .blockedForever ⟨⟨[], false⟩, ⟨[], false⟩, mState0⟩ [] :=
  (backend_pop_mode_behavior ⟨[], false⟩ mState0).1

/-- Claim C9: if the back-end timestamp is strictly below the maximum
representable `Timestamp`, the matching loop runs at least once before the
front-end payload is dereferenced, so the dereference is never of the null
initial pointer; if the back-end timestamp equals the maximum, the loop
guard is false initially, the loop is skipped (the front-end queue is not
touched), and the subsequent dereference is of a null front-end payload
pointer. -/
theorem sentinel_guards_payload_deref (parallelRun : Bool) (fq : FrontQueue)
    (b : VioBackEndOutputPayload) (bs : List MesherBackendInput)
    (m : MesherState) :
    (b.wStateBlkf.timestamp = timestampMax →
      getInputPacket parallelRun ⟨fq, ⟨some b :: bs, false⟩, m⟩ =
        .nullDeref ⟨fq, ⟨bs, false⟩, m⟩ []) ∧
    (b.wStateBlkf.timestamp ≠ timestampMax →
      ∀ (st2 : MesherModuleState) (logs : List LogMsg),
        getInputPacket parallelRun ⟨fq, ⟨some b :: bs, false⟩, m⟩ ≠
          .nullDeref st2 logs) := by
  constructor
  · intro hmax
    rw [getInputPacket_got]
    simp only [afterBackendPop, hmax]
    rw [syncLoop_exit_now]
    rfl
  · intro hne st2 logs heq
    rw [getInputPacket_got] at heq
    simp only [afterBackendPop] at heq
    rcases hr : syncLoop b.wStateBlkf.timestamp timestampMax none fq.shutdown
        fq.items with ⟨fq3, logs3⟩ | ⟨cur3, fq3, logs3⟩
    · rw [hr] at heq
      exact absurd heq (by simp [assembleOutcome])
    · obtain ⟨p, rfl, -⟩ :=
        syncLoop_exit_some b.wStateBlkf.timestamp fq.items timestampMax none cur3
          fq.shutdown fq3 logs3 (fun e => hne e.symm) hr
      rw [hr] at heq
      exact absurd heq (by simp [assembleOutcome])

/-- Witness for C9: at the maximal back-end timestamp the call ends in a
null dereference with the matching front-end entry still queued; at
timestamp 0 the call never ends in a null dereference. -/
theorem sentinel_guards_payload_deref_witness :
    (getInputPacket false
        ⟨⟨[some (fpAt timestampMax)], false⟩, ⟨[some (bpAt timestampMax)], false⟩,
          mState0⟩ =
      .nullDeref ⟨⟨[some (fpAt timestampMax)], false⟩, ⟨[], false⟩, mState0⟩ []) ∧
    (getInputPacket false ⟨⟨[], false⟩, ⟨[some (bpAt 0)], false⟩, mState0⟩ ≠
      .nullDeref ⟨⟨[], false⟩, ⟨[], false⟩, mState0⟩ []) :=
  ⟨(sentinel_guards_payload_deref false ⟨[some (fpAt timestampMax)], false⟩
      (bpAt timestampMax) [] mState0).1 rfl,
    (sentinel_guards_payload_deref false ⟨[], false⟩ (bpAt 0) [] mState0).2
      (by decide) ⟨⟨[], false⟩, ⟨[], false⟩, mState0⟩ []⟩

/-- Claim C10: a null entry popped from the front-end queue does not fail
the tick: the call on a queue starting with a null entry equals the call
on the rest of the queue with an extra missing-payload warning prepended —
in particular the expected-timestamp comparison value is unchanged and
popping continues. -/
theorem null_frontend_entry_is_transparent (parallelRun : Bool)
    (rest : List MesherFrontendInput) (b : VioBackEndOutputPayload)
    (bs : List MesherBackendInput) (m : MesherState)
    (hT : b.wStateBlkf.timestamp ≠ timestampMax) :
    getInputPacket parallelRun ⟨⟨none :: rest, false⟩, ⟨some b :: bs, false⟩, m⟩ =
      (getInputPacket parallelRun
          ⟨⟨rest, false⟩, ⟨some b :: bs, false⟩, m⟩).withLog
        .missingFrontendPayloadWarning := by
  rw [getInputPacket_got, getInputPacket_got]
  simp only [afterBackendPop]
  rw [syncLoop_cons_none b.wStateBlkf.timestamp timestampMax none rest
    (fun e => hT e)]
  exact assembleOutcome_withLog _ _ _ _ _ _

/-- Witness for C10: with front-end queue [null, 5] and back-end timestamp
5, the tick equals the [5]-queue tick plus one warning. -/
theorem null_frontend_entry_is_transparent_witness :
    getInputPacket false
        ⟨⟨[none, some (fpAt 5)], false⟩, ⟨[some (bpAt 5)], false⟩, mState0⟩ =
      (getInputPacket false
          ⟨⟨[some (fpAt 5)], false⟩, ⟨[some (bpAt 5)], false⟩, mState0⟩).withLog
        .missingFrontendPayloadWarning :=
  null_frontend_entry_is_transparent false [some (fpAt 5)] (bpAt 5) [] mState0
    (by decide)

/-- Claim C6: a lifted triangle is retained by the filter iff its
shortest-to-longest edge ratio is at least the configured minimum, its
longest edge is at most the configured maximum, and its
tangential-to-radial displacement ratio is within tolerance; violating any
single test excludes it. -/
theorem triangle_retained_iff (mesh : List LiftedTriangle)
    (minRatioSide minElongationRatio maxTriangleSide : ℚ) (t : LiftedTriangle) :
    t ∈ filterOutBadTriangles mesh minRatioSide minElongationRatio maxTriangleSide ↔
      t ∈ mesh ∧
        minRatioSide ≤ getRatioBetweenSmallestAndLargestSide t.d12 t.d23 t.d31 ∧
        max t.d12 (max t.d23 t.d31) ≤ maxTriangleSide ∧
        minElongationRatio ≤ t.tanRadRatio := by
  simp [filterOutBadTriangles, List.mem_filter, isBadTriangle, not_lt, and_assoc]

/-- Witness for C6: the (3, 4, 5) triangle passes all three tests with
ratio bound 1/2 and side bound 10, hence survives filtering of the mesh
[tGood, tBad]. -/
theorem triangle_retained_iff_witness :
    tGood ∈ filterOutBadTriangles [tGood, tBad] (1 / 2) (1 / 2) 10 :=
  (triangle_retained_iff [tGood, tBad] (1 / 2) (1 / 2) 10 tGood).mpr
    ⟨List.mem_cons_self tGood [tBad],
      by norm_num [getRatioBetweenSmallestAndLargestSide, tGood, min_def, max_def],
      by norm_num [tGood, max_def],
      by norm_num [tGood]⟩

/-- Claim C7: after a mesh update, every polygon of the resulting `Mesh3D`
lies inside the time horizon of the cycle's (augmented) points map, so no
polygon references a landmark id absent from that map. -/
theorem mesh_reduced_to_time_horizon (m : PointsWithIdMap)
    (tris : List Triangle2D) (mesh : Mesh3D) (p : Polygon3D)
    (hp : p ∈ populate3dMeshTimeHorizon m tris mesh) :
    polygonInTimeHorizon m p = true ∧
      ∀ l : LandmarkId, containsLmk m l = false →
        polygonReferencesLmk l p = false := by
  have h1 : polygonInTimeHorizon m p = true := by
    rcases List.mem_append.mp hp with h | h
    · exact (List.mem_filter.mp h).2
    · obtain ⟨tr, -, hlift⟩ := List.mem_filterMap.mp h
      rcases e1 : lookupLmk m tr.l1 with - | p1 <;>
        rcases e2 : lookupLmk m tr.l2 with - | p2 <;>
        rcases e3 : lookupLmk m tr.l3 with - | p3 <;>
        simp [liftTriangle, e1, e2, e3] at hlift
      subst hlift
      simp [polygonInTimeHorizon, containsLmk, e1, e2, e3]
  refine ⟨h1, fun l hl => ?_⟩
  simp only [polygonInTimeHorizon, Bool.and_eq_true] at h1
  obtain ⟨⟨hc1, hc2⟩, hc3⟩ := h1
  simp only [polygonReferencesLmk, Bool.or_eq_false_iff, beq_eq_false_iff_ne,
    ne_eq]
  refine ⟨⟨fun e => ?_, fun e => ?_⟩, fun e => ?_⟩
  · rw [e] at hc1; rw [hc1] at hl; exact Bool.noConfusion hl
  · rw [e] at hc2; rw [hc2] at hl; exact Bool.noConfusion hl
  · rw [e] at hc3; rw [hc3] at hl; exact Bool.noConfusion hl

/-- Witness for C7: lifting triangle (1,2,3) through the three-landmark
map while the old mesh still holds a polygon on the departed landmark 99:
the fresh polygon is inside the horizon and does not reference 99. -/
theorem mesh_reduced_to_time_horizon_witness :
    polygonInTimeHorizon hzMap freshPoly = true ∧
      polygonReferencesLmk 99 freshPoly = false := by
  have hmem : freshPoly ∈ populate3dMeshTimeHorizon hzMap [⟨1, 2, 3⟩] [stalePoly] := by
    decide
  have h := mesh_reduced_to_time_horizon hzMap [⟨1, 2, 3⟩] [stalePoly] freshPoly hmem
  exact ⟨h.1, h.2 99 (by decide)⟩

/-! ### Plane-association idempotence (C8) -/

lemma appendLmkIdsOfPolygon_eq_union (p : Polygon3D) (s : Finset LandmarkId)
    (m : PointsWithIdMap) :
    appendLmkIdsOfPolygon p s m = s ∪ polyLmkIdSet p m := by
  simp only [appendLmkIdsOfPolygon, polyLmkIdSet]
  ext a
  split_ifs <;>
    simp [Finset.mem_union, Finset.mem_insert, Finset.not_mem_empty] <;> tauto

lemma foldl_union_eq (g : Polygon3D → Finset LandmarkId) :
    ∀ (mesh : List Polygon3D) (s : Finset LandmarkId),
      mesh.foldl (fun acc p => acc ∪ g p) s =
        s ∪ mesh.foldl (fun acc p => acc ∪ g p) ∅ := by
  intro mesh
  induction mesh with
  | nil => intro s; simp
  | cons p rest ih =>
    intro s
    simp only [List.foldl_cons]
    rw [ih (s ∪ g p), ih (∅ ∪ g p), Finset.empty_union, Finset.union_assoc]

lemma updatePlaneLmkIdsFromMesh_eq (mesh : Mesh3D)
    (normalTolerance distanceTolerance : ℚ) (m : PointsWithIdMap) (pl : Plane) :
    updatePlaneLmkIdsFromMesh mesh normalTolerance distanceTolerance m pl =
      ⟨pl.id, pl.normal, pl.distance,
        pl.lmkIds ∪
          meshLmkContribution pl.normal pl.distance mesh normalTolerance
            distanceTolerance m⟩ := by
  simp only [updatePlaneLmkIdsFromMesh, meshLmkContribution]
  have hstep : (fun (s : Finset LandmarkId) (p : Polygon3D) =>
        if polygonMatchesPlane pl p normalTolerance distanceTolerance then
          appendLmkIdsOfPolygon p s m
        else s) =
      fun s p =>
        s ∪
          (if polygonMatchesGeometry pl.normal pl.distance p normalTolerance
                distanceTolerance then
            polyLmkIdSet p m
          else ∅) := by
    funext s p
    by_cases h : polygonMatchesGeometry pl.normal pl.distance p normalTolerance
        distanceTolerance
    · simp [polygonMatchesPlane, h, appendLmkIdsOfPolygon_eq_union]
    · simp [polygonMatchesPlane, h]
  rw [hstep]
  rw [foldl_union_eq _ mesh pl.lmkIds]

/-- One plane's landmark-association update is idempotent. -/
lemma updatePlaneLmkIdsFromMesh_idem (mesh : Mesh3D)
    (normalTolerance distanceTolerance : ℚ) (m : PointsWithIdMap) (pl : Plane) :
    updatePlaneLmkIdsFromMesh mesh normalTolerance distanceTolerance m
        (updatePlaneLmkIdsFromMesh mesh normalTolerance distanceTolerance m pl) =
      updatePlaneLmkIdsFromMesh mesh normalTolerance distanceTolerance m pl := by
  have hA := updatePlaneLmkIdsFromMesh_eq mesh normalTolerance distanceTolerance m pl
  rw [hA, updatePlaneLmkIdsFromMesh_eq]
  simp only [Finset.union_assoc, Finset.union_self]

/-- Claim C8: the landmark-association pass is idempotent — running
`updatePlanesLmkIdsFromMesh` twice on the same mesh, tolerances and points
map yields the same planes (in particular the same landmark set per plane)
as running it once, because the polygon-plane match reads only the plane's
geometry and landmark sets grow with set semantics. -/
theorem updatePlanesLmkIdsFromMesh_idempotent (planes : List Plane)
    (normalTolerance distanceTolerance : ℚ) (m : PointsWithIdMap)
    (mesh : Mesh3D) :
    updatePlanesLmkIdsFromMesh
        (updatePlanesLmkIdsFromMesh planes normalTolerance distanceTolerance m mesh)
        normalTolerance distanceTolerance m mesh =
      updatePlanesLmkIdsFromMesh planes normalTolerance distanceTolerance m mesh := by
  simp only [updatePlanesLmkIdsFromMesh, List.map_map]
  congr 1
  funext pl
  exact updatePlaneLmkIdsFromMesh_idem mesh normalTolerance distanceTolerance m pl

/-- Witness for C8: concrete instantiation — re-running the association of
the horizontal plane against the one-polygon mesh changes nothing. -/
theorem updatePlanesLmkIdsFromMesh_idempotent_witness :
    updatePlanesLmkIdsFromMesh
        (updatePlanesLmkIdsFromMesh [plane0] 1 1 hzMap [freshPoly]) 1 1 hzMap
        [freshPoly] =
      updatePlanesLmkIdsFromMesh [plane0] 1 1 hzMap [freshPoly] :=
  updatePlanesLmkIdsFromMesh_idempotent [plane0] 1 1 hzMap [freshPoly]

end VIO
